import Mathlib

/-!
Shallow embedding of the Product catalog REST service
(`service/routes.py` plus the Product Store it calls).

The HTTP façade (`routes.py`) is embedded directly from the source.
The Product Store (`service/models.py`) is not part of the provided
sources; its operations are modelled from the specification (sections
3, 4.1, 6 and 7 of `spec.md`) and from the behaviour its tests rely on.
Each such definition carries a doc comment starting with
`Modelled from the spec:`.

State is passed explicitly: a route handler takes the current store and
returns a result together with the new store.  A Flask `abort(code, msg)`
and the registered error handlers produce a clean `response`; an uncaught
Python exception (such as the `KeyError` from `Category[...]`) is the
separate constructor `pythonError`, which the framework surfaces to the
caller as an unexpected internal failure (HTTP 500).
-/

/-- Modelled from the spec: the fixed enumeration of category names
(spec section 3 lists CLOTHS, FOOD, UNKNOWN among them; the tests use
`Category.CLOTHS` and `Category.FOOD`; the remaining members follow the
upstream catalog template the tests were written against). -/
inductive Category : Type where
  | UNKNOWN : Category
  | CLOTHS : Category
  | FOOD : Category
  | HOUSEWARES : Category
  | AUTOMOTIVE : Category
  | TOOLS : Category
deriving DecidableEq, Repr

/-- Modelled from the spec: the enumeration name of a category, as emitted
by `serialize()` (spec section 4.1). -/
def Category.catName : Category → String
  | .UNKNOWN => ("UNKNOWN")
  | .CLOTHS => ("CLOTHS")
  | .FOOD => ("FOOD")
  | .HOUSEWARES => ("HOUSEWARES")
  | .AUTOMOTIVE => ("AUTOMOTIVE")
  | .TOOLS => ("TOOLS")

/-- Modelled from the spec: enum-by-name lookup (`Category[name]`),
`none` when the string is not a recognized enumeration name. -/
def Category.fromName (s : String) : Option Category :=
  if s = "UNKNOWN" then some .UNKNOWN
  else if s = "CLOTHS" then some .CLOTHS
  else if s = "FOOD" then some .FOOD
  else if s = "HOUSEWARES" then some .HOUSEWARES
  else if s = "AUTOMOTIVE" then some .AUTOMOTIVE
  else if s = "TOOLS" then some .TOOLS
  else none

/-- Modelled from the spec: an exact (non-floating) decimal monetary
value in its precision-preserving decimal form (spec sections 3 and 4.1):
`mantissa` scaled by `10 ^ scale`, so 12.50 is `⟨1250, 2⟩` and keeps its
trailing zero, distinct from 12.5 as `⟨125, 1⟩`. -/
structure Decimal : Type where
  mantissa : Int
  scale : Nat
deriving DecidableEq, Repr

/-- Modelled from the spec: a durable Product record (spec section 3):
`id` is assigned by the store; the remaining five fields are the payload
fields. -/
structure Product : Type where
  id : Nat
  name : String
  description : String
  price : Decimal
  available : Bool
  category : Category
deriving DecidableEq, Repr

/-- Modelled from the spec: the payload field values of a Product,
without the store-controlled `id` (spec sections 3 and 4.1). -/
structure ProductFields : Type where
  name : String
  description : String
  price : Decimal
  available : Bool
  category : Category
deriving DecidableEq, Repr

/-- A JSON scalar value as it appears in a request body: string, boolean,
decimal number, or null. -/
inductive JValue : Type where
  | jstr : String → JValue
  | jbool : Bool → JValue
  | jdec : Decimal → JValue
  | jnull : JValue
deriving DecidableEq, Repr

/-- A parsed JSON request body for a Product: the value found under each
of the five payload keys, `none` when the key is absent. -/
structure Payload : Type where
  name : Option JValue
  description : Option JValue
  price : Option JValue
  available : Option JValue
  category : Option JValue
deriving DecidableEq, Repr

/-- The serialized external representation of a durable Product
(spec section 6): `category` as its enumeration name and `price` in its
precision-preserving decimal form. -/
structure ProductJson : Type where
  id : Nat
  name : String
  description : String
  price : Decimal
  available : Bool
  category : String
deriving DecidableEq, Repr

namespace Product

/-- Modelled from the spec: `serialize()` produces the external key-value
representation from current field values, with `category` emitted as its
enumeration name and `price` in precision-preserving decimal form
(spec section 4.1). -/
def serialize (p : Product) : ProductJson :=
  ⟨p.id, p.name, p.description, p.price, p.available, p.category.catName⟩

/-- The payload field values of a durable Product (everything but `id`). -/
def fields (p : Product) : ProductFields :=
  ⟨p.name, p.description, p.price, p.available, p.category⟩

end Product

/-- The request body obtained by re-submitting a serialized Product, as
the tests do (`test_product.serialize()` posted as JSON). -/
def payloadOfJson (j : ProductJson) : Payload :=
  ⟨some (.jstr j.name), some (.jstr j.description), some (.jdec j.price),
    some (.jbool j.available), some (.jstr j.category)⟩

/-- Modelled from the spec: `deserialize(payload)` converts the external
key-value representation into the Product's payload fields.  It fails
with a ValidationError message if any required key is missing, if
`available` is present but not a boolean, if `category` does not match a
known enumeration name, or if another field has an incompatible type
(type errors are wrapped as ValidationError; no silent coercion —
spec sections 3 and 4.1). -/
def deserializeFields (d : Payload) : Except String ProductFields := do
  let nm ← match d.name with
    | some (.jstr s) => Except.ok s
    | some _ => Except.error ("Invalid type for field name")
    | none => Except.error ("Invalid product: missing name")
  let desc ← match d.description with
    | some (.jstr s) => Except.ok s
    | some _ => Except.error ("Invalid type for field description")
    | none => Except.error ("Invalid product: missing description")
  let pr ← match d.price with
    | some (.jdec v) => Except.ok v
    | some _ => Except.error ("Invalid type for field price")
    | none => Except.error ("Invalid product: missing price")
  let av ← match d.available with
    | some (.jbool b) => Except.ok b
    | some _ => Except.error ("Invalid type for boolean [available]")
    | none => Except.error ("Invalid product: missing available")
  let cat ← match d.category with
    | some (.jstr s) =>
        match Category.fromName s with
        | some c => Except.ok c
        | none => Except.error ("Invalid attribute: unknown category")
    | some _ => Except.error ("Invalid type for field category")
    | none => Except.error ("Invalid product: missing category")
  Except.ok ⟨nm, desc, pr, av, cat⟩

/-- The persisted table: one row per Product, in storage order
(spec section 6). -/
abbrev Store := List Product

/-- A durable Product built from deserialized payload fields and a
store-assigned id. -/
def mkProduct (i : Nat) (f : ProductFields) : Product :=
  ⟨i, f.name, f.description, f.price, f.available, f.category⟩

namespace Product

/-- Modelled from the spec: `find(id)` is a point lookup by primary key
(spec section 4.1). -/
def find (s : Store) (i : Nat) : Option Product :=
  s.find? (fun p => p.id = i)

/-- Modelled from the spec: `all()` is a full table scan in storage order
(spec section 4.1). -/
def all (s : Store) : List Product := s

/-- Modelled from the spec: `find_by_name(name)` is an exact-match filter
(spec section 4.1). -/
def find_by_name (s : Store) (n : String) : List Product :=
  s.filter (fun p => p.name = n)

/-- Modelled from the spec: `find_by_category(category)` is an
exact-match filter on the enum field (spec section 4.1). -/
def find_by_category (s : Store) (c : Category) : List Product :=
  s.filter (fun p => p.category = c)

/-- Modelled from the spec: `find_by_availability(flag)` is an
exact-match filter on the boolean field (spec section 4.1). -/
def find_by_availability (s : Store) (b : Bool) : List Product :=
  s.filter (fun p => p.available = b)

end Product

/-- Modelled from the spec: the new unique id assigned by `create`
(spec section 4.1); one more than the largest id in the table, hence
unused. -/
def freshId (s : Store) : Nat :=
  (s.map (fun p => p.id)).foldr max 0 + 1

/-- Modelled from the spec: `create(product)` assigns a new unique id and
inserts the row (spec section 4.1). -/
def createRow (s : Store) (f : ProductFields) : Store × Product :=
  let p := mkProduct (freshId s) f
  (s ++ [p], p)

/-- Modelled from the spec: `update(product)` persists the current field
values over the existing row matching the id (spec section 4.1). -/
def updateRow (s : Store) (p : Product) : Store :=
  s.map (fun q => if q.id = p.id then p else q)

/-- Modelled from the spec: `delete(product)` removes the row matching
the product's id; a no-op if already absent (spec section 4.1). -/
def deleteRow (s : Store) (i : Nat) : Store :=
  s.filter (fun q => q.id ≠ i)

/-- A JSON response body: a single serialized Product, an array of them,
the empty body, or a short error message. -/
inductive Body : Type where
  | product : ProductJson → Body
  | products : List ProductJson → Body
  | empty : Body
  | errorMsg : String → Body
deriving DecidableEq, Repr

/-- The outcome of one request.  `response` is a clean HTTP response
(status, body, optional Location header), covering both success and
`abort`/error-handler paths.  `pythonError` is an uncaught Python
exception escaping the handler, which the framework surfaces as an
unexpected internal failure (HTTP 500) rather than a handled error
response. -/
inductive RouteResult : Type where
  | response : Nat → Body → Option String → RouteResult
  | pythonError : String → RouteResult
deriving DecidableEq, Repr

/-- An incoming request with a body: the `Content-Type` header if
present, and the parsed JSON body. -/
structure Request : Type where
  contentType : Option String
  body : Payload
deriving DecidableEq, Repr

/-- The query parameters of `GET /products`: the value of each of the
three recognized parameters, `none` when absent. -/
structure QueryArgs : Type where
  name : Option String
  category : Option String
  available : Option String
deriving DecidableEq, Repr

/-- Python's `bool(s)` on a string: `False` exactly for the empty string,
`True` for every non-empty string (`routes.py` line 109). -/
def strTruthy (s : String) : Bool :=
  !s.isEmpty

/-- The 415 message aborted with by `check_content_type`
(`routes.py` lines 49-65). -/
def contentTypeMsg : String :=
  "Content-Type must be application/json"

/-- `check_content_type` (`routes.py` lines 49-65): true exactly when the
`Content-Type` header is present and equal to the expected media type;
otherwise the caller aborts with 415. -/
def check_content_type (expected : String) (header : Option String) : Bool :=
  match header with
  | none => false
  | some ct => ct = expected

/-- The URL generated by `url_for("get_products", id=i)`: the
`GET /products/{id}` route for that id. -/
def productLocation (i : Nat) : String :=
  "/products/" ++ toString i

/-- The 404 message aborted with for a missing id
(`routes.py` lines 131-134, 157-160, 183-186). -/
def notFoundMsg (i : Nat) : String :=
  "Product with id: " ++ toString i ++ " does not exist"

/-- `create_products` (`routes.py` lines 71-90): check content type
(415), deserialize the body (400 via the DataValidationError handler,
spec section 7), create the row, and answer 201 with the serialized
Product and a Location header. -/
def create_products (s : Store) (req : Request) : RouteResult × Store :=
  if check_content_type ("application/json") req.contentType then
    match deserializeFields req.body with
    | .error e => (.response 400 (.errorMsg e) none, s)
    | .ok f =>
        let (s2, p) := createRow s f
        (.response 201 (.product p.serialize) (some (productLocation p.id)), s2)
  else
    (.response 415 (.errorMsg contentTypeMsg) none, s)

/-- `list_products` (`routes.py` lines 97-115): dispatch on the first
present query parameter in the order name, category, available; the
category branch performs the raising enum lookup `Category[...]`; the
available branch parses the value with Python `bool(...)`. -/
def list_products (s : Store) (args : QueryArgs) : RouteResult :=
  match args.name with
  | some n => .response 200 (.products ((Product.find_by_name s n).map Product.serialize)) none
  | none =>
    match args.category with
    | some cs =>
        match Category.fromName cs with
        | some c =>
            .response 200 (.products ((Product.find_by_category s c).map Product.serialize)) none
        | none => .pythonError ("KeyError: " ++ cs)
    | none =>
      match args.available with
      | some v =>
          .response 200
            (.products ((Product.find_by_availability s (strTruthy v)).map Product.serialize)) none
      | none => .response 200 (.products ((Product.all s).map Product.serialize)) none

/-- `get_products` (`routes.py` lines 121-137): 404 when the id is
unknown, else 200 with the serialized Product. -/
def get_products (s : Store) (i : Nat) : RouteResult :=
  match Product.find s i with
  | none => .response 404 (.errorMsg (notFoundMsg i)) none
  | some p => .response 200 (.product p.serialize) none

/-- `update_products` (`routes.py` lines 143-165): check content type
(415), then locate the row (404), then deserialize the body onto it
(400 via the DataValidationError handler, spec section 7), persist, and
answer 200 with the updated serialized Product. -/
def update_products (s : Store) (i : Nat) (req : Request) : RouteResult × Store :=
  if check_content_type ("application/json") req.contentType then
    match Product.find s i with
    | none => (.response 404 (.errorMsg (notFoundMsg i)) none, s)
    | some p =>
        match deserializeFields req.body with
        | .error e => (.response 400 (.errorMsg e) none, s)
        | .ok f =>
            let p2 := mkProduct p.id f
            (.response 200 (.product p2.serialize) none, updateRow s p2)
  else
    (.response 415 (.errorMsg contentTypeMsg) none, s)

/-- `delete_products` (`routes.py` lines 173-188): 404 when the id is
unknown, else delete the row and answer 204 with an empty body. -/
def delete_products (s : Store) (i : Nat) : RouteResult × Store :=
  match Product.find s i with
  | none => (.response 404 (.errorMsg (notFoundMsg i)) none, s)
  | some p => (.response 204 .empty none, deleteRow s p.id)

/-- An empty request body (no recognized key present). -/
def emptyPayload : Payload :=
  ⟨none, none, none, none, none⟩

/-- A concrete unavailable product (available = false). -/
def productFalse : Product :=
  ⟨1, "Fedora", "A red hat", ⟨1250, 2⟩, false, .CLOTHS⟩

/-- A concrete available product (available = true). -/
def productTrue : Product :=
  ⟨2, "Banana", "A yellow fruit", ⟨99, 2⟩, true, .FOOD⟩

/-- A concrete valid request body, the scenario payload of the spec. -/
def fedoraBody : Payload :=
  ⟨some (.jstr ("Fedora")), some (.jstr ("A red hat")), some (.jdec ⟨1250, 2⟩),
    some (.jbool true), some (.jstr ("CLOTHS"))⟩

/-- The field values carried by `fedoraBody`. -/
def fedoraFields : ProductFields :=
  ⟨"Fedora", "A red hat", ⟨1250, 2⟩, true, .CLOTHS⟩

/-- `fedoraBody` with a non-boolean `available` value, the invalid-update
scenario of the spec. -/
def fedoraBodyBadAvailable : Payload :=
  { fedoraBody with available := some (.jstr ("wrong type")) }

/-- A found row is a member of the table and carries the looked-up id. -/
theorem find_mem_id (s : Store) (i : Nat) (p : Product)
    (h : Product.find s i = some p) : p ∈ s ∧ p.id = i := by
  refine ⟨List.mem_of_find?_eq_some h, ?_⟩
  have := List.find?_some h
  simpa using this

/-- `find` misses exactly when no row carries the id. -/
theorem find_eq_none_iff (s : Store) (i : Nat) :
    Product.find s i = none ↔ ∀ p ∈ s, p.id ≠ i := by
  unfold Product.find
  rw [List.find?_eq_none]
  simp

/-- After `deleteRow`, the id can no longer be found. -/
theorem find_deleteRow (s : Store) (i : Nat) :
    Product.find (deleteRow s i) i = none := by
  rw [find_eq_none_iff]
  intro p hp
  have := (List.mem_filter.mp hp).2
  simpa using this

/-- After `updateRow` with a row carrying id `i`, `find` at `i` returns
exactly that row, provided some row with id `i` was present. -/
theorem find_updateRow (s : Store) (p2 : Product)
    (h : Product.find s p2.id ≠ none) :
    Product.find (updateRow s p2) p2.id = some p2 := by
  induction s with
  | nil => simp [Product.find] at h
  | cons q t ih =>
      by_cases hq : q.id = p2.id
      · simp [Product.find, updateRow, hq]
      · have h2 : Product.find t p2.id ≠ none := by
          simpa [Product.find, List.find?, hq] using h
        have := ih h2
        simpa [Product.find, updateRow, List.find?, hq] using this

/-- A member of a list of naturals is bounded by the fold of `max`. -/
theorem le_foldr_max (l : List Nat) (x : Nat) (hx : x ∈ l) :
    x ≤ l.foldr max 0 := by
  induction l with
  | nil => simp at hx
  | cons a t ih =>
      rcases List.mem_cons.mp hx with h1 | h2
      · simp [h1, le_max_iff]
      · exact le_trans (ih h2) (by simp [le_max_iff])

/-- Every id in the table is strictly below `freshId`. -/
theorem id_lt_freshId (s : Store) : ∀ p ∈ s, p.id < freshId s := by
  intro p hp
  have hle : p.id ≤ (s.map (fun q => q.id)).foldr max 0 :=
    le_foldr_max _ _ (List.mem_map_of_mem _ hp)
  unfold freshId
  omega

/-- The id assigned by `create` is not already present in the table. -/
theorem freshId_not_mem (s : Store) : freshId s ∉ s.map (fun p => p.id) := by
  intro hmem
  rcases List.mem_map.mp hmem with ⟨p, hp, hid⟩
  have := id_lt_freshId s p hp
  omega


/-- C9: for every product, deserializing its serialized external
representation reproduces the payload field values exactly — name,
description, price (in its precision-preserving decimal form), available
and category — with only the store-controlled `id` excluded from the
round-trip. -/
theorem C9_serialize_deserialize_roundtrip (p : Product) :
    deserializeFields (payloadOfJson p.serialize) = Except.ok p.fields := by
  cases p with
  | mk i nm d pr av c => cases c <;> rfl

/-- C10: when the `available` query parameter is present with the empty
string value, the service answers 200 with exactly the persisted
products whose `available` field is false, because Python's `bool` of
the empty string is false. -/
theorem C10_empty_available_lists_unavailable (s : Store) :
    strTruthy "" = false ∧
    list_products s ⟨none, none, some ""⟩ =
      .response 200
        (.products ((Product.find_by_availability s false).map Product.serialize)) none := by
  exact ⟨rfl, rfl⟩

/-- C2: the claim says an unrecognized `category` name fails cleanly with
an error response; the code instead evaluates `Category[...]`, whose
lookup fails, raising an uncaught KeyError that the framework surfaces
as an unexpected internal failure (HTTP 500). -/
theorem C2_unknown_category_uncaught_keyerror :
    Category.fromName ("SHOES") = none ∧
    list_products [productFalse] ⟨none, some ("SHOES"), none⟩ =
      .pythonError ("KeyError: SHOES") := by
  exact ⟨rfl, rfl⟩

/-- C1 counterexample: with a single persisted unavailable product and
`available=False`, the claim predicts the response listing exactly the
products with `available = false` (that one product); the code parses
"False" with Python `bool`, obtains `true`, and answers with the
`available = true` subset, which is empty and differs from the claimed
body. -/
theorem C1_availability_false_counterexample :
    productFalse.available = false ∧
    list_products [productFalse] ⟨none, none, some ("False")⟩ =
      .response 200
        (.products ((Product.find_by_availability [productFalse] true).map Product.serialize))
        none ∧
    (Product.find_by_availability [productFalse] true).map Product.serialize ≠
      (Product.find_by_availability [productFalse] false).map Product.serialize := by
  refine ⟨rfl, rfl, ?_⟩
  decide

/-- C1 amended: the availability flag is obtained by Python string
truthiness, not boolean parsing: every non-empty parameter value —
"True" and "true", but also "False" and "false" — yields the flag true
and selects exactly the persisted products whose `available` field is
true; only the empty string yields false. -/
theorem C1_availability_truthiness (s : Store) (v : String) :
    list_products s ⟨none, none, some v⟩ =
      .response 200
        (.products ((Product.find_by_availability s (strTruthy v)).map Product.serialize))
        none ∧
    (v ≠ "" → strTruthy v = true) := by
  constructor
  · rfl
  · intro hv
    have h2 : v.isEmpty = false := by
      cases h : v.isEmpty with
      | false => rfl
      | true => exact absurd ((String.isEmpty_iff v).mp h) hv
    simp [strTruthy, h2]

/-- C1 witness: at the concrete value "False" the amended claim applies:
the flag is true and the response lists the `available = true` subset. -/
theorem C1_availability_truthiness_witness :
    list_products [productFalse] ⟨none, none, some ("False")⟩ =
      .response 200
        (.products
          ((Product.find_by_availability [productFalse] (strTruthy ("False"))).map
            Product.serialize))
        none ∧
    strTruthy ("False") = true := by
  exact ⟨(C1_availability_truthiness [productFalse] ("False")).1,
    (C1_availability_truthiness [productFalse] ("False")).2 (by decide)⟩

/-- C7: a request to either body-accepting endpoint whose Content-Type
header is missing or not exactly "application/json" is answered 415 with
the store unchanged, whatever the body holds — the body is never
consulted. -/
theorem C7_content_type_415 (s : Store) (i : Nat) (req : Request)
    (h : ∀ ct, req.contentType = some ct → ct ≠ "application/json") :
    create_products s req = (.response 415 (.errorMsg contentTypeMsg) none, s) ∧
    update_products s i req = (.response 415 (.errorMsg contentTypeMsg) none, s) := by
  have hcc : check_content_type ("application/json") req.contentType = false := by
    cases hct : req.contentType with
    | none => rfl
    | some ct => simpa [check_content_type] using h ct hct
  constructor
  · simp [create_products, hcc]
  · simp [update_products, hcc]

/-- C7 witness: a concrete POST and PUT with Content-Type "plain/text"
are both answered 415 and leave the store unchanged. -/
theorem C7_content_type_415_witness :
    create_products [productFalse] ⟨some ("plain/text"), fedoraBody⟩ =
      (.response 415 (.errorMsg contentTypeMsg) none, [productFalse]) ∧
    update_products [productFalse] 1 ⟨some ("plain/text"), fedoraBody⟩ =
      (.response 415 (.errorMsg contentTypeMsg) none, [productFalse]) :=
  C7_content_type_415 [productFalse] 1 ⟨some ("plain/text"), fedoraBody⟩
    (by intro ct hct; injection hct with h2; subst h2; decide)

/-- C3: DELETE removes the stored product and answers 204 with an empty
body when the id exists, 404 when it does not; after a successful
delete the id can no longer be found, so a second DELETE of the same id
answers 404. -/
theorem C3_delete_semantics (s : Store) (i : Nat) :
    (Product.find s i = none →
        delete_products s i = (.response 404 (.errorMsg (notFoundMsg i)) none, s)) ∧
    (∀ p, Product.find s i = some p →
        delete_products s i = (.response 204 .empty none, deleteRow s i) ∧
        Product.find (deleteRow s i) i = none ∧
        (delete_products (deleteRow s i) i).1 =
          .response 404 (.errorMsg (notFoundMsg i)) none) := by
  constructor
  · intro h
    simp [delete_products, h]
  · intro p hp
    have hid := (find_mem_id s i p hp).2
    refine ⟨by simp [delete_products, hp, hid], find_deleteRow s i, ?_⟩
    simp [delete_products, find_deleteRow s i]

/-- C3 witness: deleting the one stored product answers 204 and empties
the table; the immediate second delete of the same id answers 404. -/
theorem C3_delete_semantics_witness :
    delete_products [productFalse] 1 =
      (.response 204 .empty none, deleteRow [productFalse] 1) ∧
    (delete_products (deleteRow [productFalse] 1) 1).1 =
      .response 404 (.errorMsg (notFoundMsg 1)) none := by
  have h := (C3_delete_semantics [productFalse] 1).2 productFalse rfl
  exact ⟨h.1, h.2.2⟩

/-- C4: PUT with JSON content type answers 404 when the id is unknown;
otherwise 400 with the store unchanged when the body fails validation;
otherwise the row's fields are replaced by the body's values with the id
retained, the new values are persisted (found again under the same id),
and the response is 200 with the updated serialized Product. -/
theorem C4_update_semantics (s : Store) (i : Nat) (req : Request)
    (hct : req.contentType = some ("application/json")) :
    (Product.find s i = none →
        update_products s i req = (.response 404 (.errorMsg (notFoundMsg i)) none, s)) ∧
    (∀ p e, Product.find s i = some p → deserializeFields req.body = Except.error e →
        update_products s i req = (.response 400 (.errorMsg e) none, s)) ∧
    (∀ p f, Product.find s i = some p → deserializeFields req.body = Except.ok f →
        update_products s i req =
          (.response 200 (.product (mkProduct i f).serialize) none,
            updateRow s (mkProduct i f)) ∧
        (mkProduct i f).id = i ∧
        (mkProduct i f).fields = f ∧
        Product.find (updateRow s (mkProduct i f)) i = some (mkProduct i f)) := by
  have hcc : check_content_type ("application/json") req.contentType = true := by
    simp [check_content_type, hct]
  refine ⟨?_, ?_, ?_⟩
  · intro h
    simp [update_products, hcc, h]
  · intro p e hp he
    simp [update_products, hcc, hp, he]
  · intro p f hp hf
    have hid := (find_mem_id s i p hp).2
    refine ⟨by simp [update_products, hcc, hp, hf, hid], rfl, rfl, ?_⟩
    have hne : Product.find s (mkProduct i f).id ≠ none := by
      show Product.find s i ≠ none
      rw [hp]
      simp
    exact find_updateRow s (mkProduct i f) hne

/-- C4 witness: updating the one stored product (id 1) with a valid body
answers 200 with the updated serialized Product, and the updated row is
found again under id 1. -/
theorem C4_update_semantics_witness :
    update_products [productFalse] 1 ⟨some ("application/json"), fedoraBody⟩ =
      (.response 200 (.product (mkProduct 1 fedoraFields).serialize) none,
        updateRow [productFalse] (mkProduct 1 fedoraFields)) ∧
    Product.find (updateRow [productFalse] (mkProduct 1 fedoraFields)) 1 =
      some (mkProduct 1 fedoraFields) := by
  have h := (C4_update_semantics [productFalse] 1
      ⟨some ("application/json"), fedoraBody⟩ rfl).2.2 productFalse fedoraFields rfl rfl
  exact ⟨h.1, h.2.2.2⟩

/-- C5: POST with JSON content type and a body that deserializes to
fields `f` creates the row and answers 201 whose body is the serialized
product carrying the newly assigned id (one not already present in the
table) and the payload's field values, with a Location header pointing
at the GET /products/{id} route for that id. -/
theorem C5_create_product_201 (s : Store) (req : Request)
    (hct : req.contentType = some ("application/json"))
    (f : ProductFields) (hf : deserializeFields req.body = Except.ok f) :
    create_products s req =
      (.response 201 (.product (mkProduct (freshId s) f).serialize)
        (some (productLocation (freshId s))), s ++ [mkProduct (freshId s) f]) ∧
    freshId s ∉ s.map (fun p => p.id) ∧
    (mkProduct (freshId s) f).serialize =
      ⟨freshId s, f.name, f.description, f.price, f.available, f.category.catName⟩ := by
  have hcc : check_content_type ("application/json") req.contentType = true := by
    simp [check_content_type, hct]
  refine ⟨?_, freshId_not_mem s, rfl⟩
  simp [create_products, hcc, hf, createRow, mkProduct]

/-- C5 witness: posting the spec's Fedora payload to the empty store
creates the row and answers 201 with the Location header for the
assigned id. -/
theorem C5_create_product_201_witness :
    create_products [] ⟨some ("application/json"), fedoraBody⟩ =
      (.response 201 (.product (mkProduct (freshId []) fedoraFields).serialize)
        (some (productLocation (freshId []))), [] ++ [mkProduct (freshId []) fedoraFields]) :=
  (C5_create_product_201 [] ⟨some ("application/json"), fedoraBody⟩ rfl fedoraFields rfl).1

/-- C6: POST with JSON content type whose body fails validation (a
missing required field or a malformed value) answers 400 and leaves the
set of stored products unchanged: no row is persisted. -/
theorem C6_create_invalid_400_no_insert (s : Store) (req : Request)
    (hct : req.contentType = some ("application/json"))
    (e : String) (he : deserializeFields req.body = Except.error e) :
    create_products s req = (.response 400 (.errorMsg e) none, s) := by
  have hcc : check_content_type ("application/json") req.contentType = true := by
    simp [check_content_type, hct]
  simp [create_products, hcc, he]

/-- C6 witness: posting a body whose `available` is a string answers 400
and leaves the store unchanged. -/
theorem C6_create_invalid_400_no_insert_witness :
    create_products [productFalse] ⟨some ("application/json"), fedoraBodyBadAvailable⟩ =
      (.response 400 (.errorMsg ("Invalid type for boolean [available]")) none,
        [productFalse]) :=
  C6_create_invalid_400_no_insert [productFalse]
    ⟨some ("application/json"), fedoraBodyBadAvailable⟩ rfl
    ("Invalid type for boolean [available]") rfl

/-- C8: GET /products dispatches on the first present query parameter in
the order name, category, available, and answers 200 with the serialized
exact-match subset of the persisted products — all of them when no
parameter is given; the subset may be empty and the status is still
200. -/
theorem C8_list_products_dispatch (s : Store) (args : QueryArgs) :
    (∀ n, args.name = some n →
        list_products s args =
          .response 200 (.products ((Product.find_by_name s n).map Product.serialize)) none) ∧
    (∀ cs c, args.name = none → args.category = some cs → Category.fromName cs = some c →
        list_products s args =
          .response 200
            (.products ((Product.find_by_category s c).map Product.serialize)) none) ∧
    (∀ v, args.name = none → args.category = none → args.available = some v →
        list_products s args =
          .response 200
            (.products ((Product.find_by_availability s (strTruthy v)).map Product.serialize))
            none) ∧
    (args.name = none → args.category = none → args.available = none →
        list_products s args =
          .response 200 (.products ((Product.all s).map Product.serialize)) none) := by
  refine ⟨?_, ?_, ?_, ?_⟩
  · intro n hn
    simp [list_products, hn]
  · intro cs c h1 h2 h3
    simp [list_products, h1, h2, h3]
  · intro v h1 h2 h3
    simp [list_products, h1, h2, h3]
  · intro h1 h2 h3
    simp [list_products, h1, h2, h3, Product.all]

/-- C8 witness: with two stored products and `name=Fedora`, the response
is 200 with the serialized exact-name subset. -/
theorem C8_list_products_dispatch_witness :
    list_products [productFalse, productTrue] ⟨some ("Fedora"), none, none⟩ =
      .response 200
        (.products ((Product.find_by_name [productFalse, productTrue] ("Fedora")).map
          Product.serialize)) none :=
  (C8_list_products_dispatch [productFalse, productTrue] ⟨some ("Fedora"), none, none⟩).1
    ("Fedora") rfl
